import Mathlib

set_option maxHeartbeats 1000000

/-!
A shallow embedding of the Tauri host shell in `src/src-tauri/src/main.rs`.

Pure data (records, strings) is translated directly.  The mutable host
resources (webview windows, the three named key-value stores, shown
notifications, emitted UI events) are gathered into an explicit state
`SysState` that every handler threads through.  Fallible host calls
(`window.set_focus`, `window.show`, `window.hide`, `WebviewWindowBuilder::build`,
`window.emit`, `store.save`, `notification.show`, `opener.open_url`) are modelled
by a `HostEnv` record carrying the outcome each such call would produce, so a
handler is a function `HostEnv → SysState → args → SysState × Except String Unit`;
the pair keeps the state reached even when the handler propagates an error,
mirroring the fact that the Rust stores are shared in-memory objects that keep
their mutations when a later step fails.  Store builds and JSON
(de)serialization of values written by this same program always succeed and are
modelled as the identity (stores hold typed records).
-/

-- ## String helpers

/-- Models Rust `str::starts_with` as a character-list check. -/
def strStartsWith (s p : String) : Bool := p.data.isPrefixOf s.data

/-- Lexicographic order on character lists. -/
def charListLe : List Char → List Char → Bool
  | [], _ => true
  | _ :: _, [] => false
  | a :: as, b :: bs => if a < b then true else if a = b then charListLe as bs else false

/-- Models the Rust `String` ordering (`<=` / `>=`) used by the quiet-hours
comparison; on the ASCII `"HH:MM"` strings involved this agrees with Rust's
byte-wise lexicographic order. -/
def strLe (a b : String) : Bool := charListLe a.data b.data

-- ## Association-list stores (tauri-plugin-store `get` / `set` / `delete`)

/-- `store.get k`: first binding of `k`. -/
def slookup {β : Type} (k : String) : List (String × β) → Option β
  | [] => none
  | (k2, v) :: rest => if k = k2 then some v else slookup k rest

/-- `store.delete k`: remove every binding of `k`. -/
def sdelete {β : Type} (k : String) : List (String × β) → List (String × β)
  | [] => []
  | (k2, v) :: rest => if k = k2 then sdelete k rest else (k2, v) :: sdelete k rest

-- ## Data model (structs of `main.rs`)

structure WindowConfig where
  width : Float
  height : Float
  x : Option Float
  y : Option Float
  maximized : Bool
  minimized : Bool

structure NotificationData where
  id : String
  title : String
  body : String
  chat_id : Option String
  sender_id : Option String
  notification_type : String
  timestamp : Nat
deriving DecidableEq

structure NotificationSettings where
  enabled : Bool
  sound_enabled : Bool
  show_preview : Bool
  suppress_when_focused : Bool
  quiet_hours_enabled : Bool
  quiet_hours_start : Option String
  quiet_hours_end : Option String
deriving DecidableEq

/-- `impl Default for NotificationSettings` in `main.rs`. -/
def NotificationSettings.default : NotificationSettings :=
  { enabled := true
    sound_enabled := true
    show_preview := true
    suppress_when_focused := true
    quiet_hours_enabled := false
    quiet_hours_start := none
    quiet_hours_end := none }

/-- A webview window as far as this layer observes it: the title and URL it was
built with and whether it is currently visible (`show` / `hide`). -/
structure WebviewWindow where
  title : String
  url : String
  visible : Bool
deriving DecidableEq

/-- The host resources every handler can touch. -/
structure SysState where
  /-- Webview windows keyed by label (`get_webview_window`). -/
  windows : List (String × WebviewWindow)
  /-- `notifications.json`: notification id → action-data map. -/
  notifStore : List (String × List (String × String))
  /-- `notification-settings.json`: holds the fixed `"settings"` key. -/
  settingsStore : List (String × NotificationSettings)
  /-- `window-state.json`: window label → `WindowConfig`. -/
  windowStateStore : List (String × WindowConfig)
  /-- OS notifications actually shown, as (title, body). -/
  shown : List (String × String)
  /-- UI events emitted, as (window label, event name). -/
  events : List (String × String)
  /-- Windows focused by `set_focus`, most recent first. -/
  focusLog : List String

/-- Outcomes of the fallible host calls, plus the host facts the handlers read:
whether the main window reports focus (`is_focused().unwrap_or(false)`) and the
current local time formatted `"%H:%M"`. -/
structure HostEnv where
  setFocusResult : Except String Unit
  showResult : Except String Unit
  hideResult : Except String Unit
  closeResult : Except String Unit
  buildResult : Except String Unit
  emitResult : Except String Unit
  saveResult : Except String Unit
  notifShowResult : Except String Unit
  openerResult : Except String Unit
  mainFocused : Bool
  currentTime : String

/-- `app_handle.get_webview_window(label)`. -/
def getWebviewWindow (st : SysState) (label : String) : Option WebviewWindow :=
  slookup label st.windows

/-- Update the visibility flag of the window with the given label. -/
def updVisible (label : String) (b : Bool) :
    List (String × WebviewWindow) → List (String × WebviewWindow) :=
  List.map fun p => if p.1 = label then (p.1, { p.2 with visible := b }) else p

/-- Effect of `window.show()` / `window.hide()` on the window map. -/
def setWindowVisible (st : SysState) (label : String) (b : Bool) : SysState :=
  { st with windows := updVisible label b st.windows }

/-- Sequencing of fallible steps over the host state; models the Rust `?`
operator: an error propagates, keeping the state reached so far. -/
def stepThen (r : SysState × Except String Unit)
    (f : SysState → SysState × Except String Unit) : SysState × Except String Unit :=
  match r with
  | (st1, Except.error e) => (st1, Except.error e)
  | (st1, Except.ok _) => f st1

-- ## Window label normalization (lines 94-98 and 133-137 of `main.rs`)

/-- Rust `char::is_ascii_alphanumeric`. -/
def isAsciiAlphanumericChar (c : Char) : Bool :=
  (('A' ≤ c && c ≤ 'Z') || ('a' ≤ c && c ≤ 'z')) || ('0' ≤ c && c ≤ '9')

/-- The id normalization inlined in `create_chat_window`. -/
def createChatNormalizedId (chat_id : String) : String :=
  String.mk (chat_id.data.map fun c =>
    if isAsciiAlphanumericChar c || c == '_' || c == '-' then c else '-')

/-- The window label derived in `create_chat_window`. -/
def createChatWindowLabel (chat_id : String) : String :=
  "chat-" ++ createChatNormalizedId chat_id

/-- The id normalization inlined in `close_chat_window` (textually the same
mapping as in `create_chat_window`). -/
def closeChatNormalizedId (chat_id : String) : String :=
  String.mk (chat_id.data.map fun c =>
    if isAsciiAlphanumericChar c || c == '_' || c == '-' then c else '-')

/-- The window label derived in `close_chat_window`. -/
def closeChatWindowLabel (chat_id : String) : String :=
  "chat-" ++ closeChatNormalizedId chat_id

/-- Modelled from the spec: the character class `[A-Za-z0-9_-]` that §8 calls
the safe label characters. -/
def specSafeChar (c : Char) : Bool :=
  ('A' ≤ c && c ≤ 'Z') || ('a' ≤ c && c ≤ 'z') || ('0' ≤ c && c ≤ '9') ||
    c == '_' || c == '-'

-- ## Window lifecycle handlers

/-- `create_chat_window` (lines 87-128). -/
def create_chat_window (env : HostEnv) (st : SysState) (chat_id contact_name : String) :
    SysState × Except String Unit :=
  let window_label := createChatWindowLabel chat_id
  if (getWebviewWindow st window_label).isSome then
    match getWebviewWindow st window_label with
    | some _ =>
      match env.setFocusResult with
      | Except.error e => (st, Except.error e)
      | Except.ok _ => ({ st with focusLog := window_label :: st.focusLog }, Except.ok ())
    | none => (st, Except.ok ())
  else
    let window_title := "Chat with " ++ contact_name
    let window_url := "/?chat=" ++ chat_id ++ "&window=chat"
    match env.buildResult with
    | Except.error e => (st, Except.error e)
    | Except.ok _ =>
      ({ st with windows :=
          (window_label, { title := window_title, url := window_url, visible := true })
            :: st.windows },
        Except.ok ())

/-- `close_chat_window` (lines 130-144). -/
def close_chat_window (env : HostEnv) (st : SysState) (chat_id : String) :
    SysState × Except String Unit :=
  let window_label := closeChatWindowLabel chat_id
  match getWebviewWindow st window_label with
  | some _ =>
    match env.closeResult with
    | Except.error e => (st, Except.error e)
    | Except.ok _ =>
      ({ st with windows := st.windows.filter fun p => !(p.1 = window_label : Bool) },
        Except.ok ())
  | none => (st, Except.ok ())

/-- `restore_from_tray` (lines 152-159). -/
def restore_from_tray (env : HostEnv) (st : SysState) : SysState × Except String Unit :=
  match getWebviewWindow st "main" with
  | some _ =>
    match env.showResult with
    | Except.error e => (st, Except.error e)
    | Except.ok _ =>
      let st1 := setWindowVisible st "main" true
      match env.setFocusResult with
      | Except.error e => (st1, Except.error e)
      | Except.ok _ => ({ st1 with focusLog := "main" :: st1.focusLog }, Except.ok ())
  | none => (st, Except.ok ())

/-- The `CloseRequested` arm of `on_window_event` (lines 499-510): the main
window is hidden (best effort, errors ignored) and the close is vetoed; any
other window is not prevented and the host destroys it. -/
def on_window_event_close_requested (env : HostEnv) (st : SysState) (label : String) :
    SysState :=
  if label = "main" then
    match env.hideResult with
    | Except.ok _ => setWindowVisible st "main" false
    | Except.error _ => st
  else
    { st with windows := st.windows.filter fun p => !(p.1 = label : Bool) }

-- ## Window state persistence

/-- `save_window_state` (lines 177-191). -/
def save_window_state (env : HostEnv) (st : SysState) (window_label : String)
    (config : WindowConfig) : SysState × Except String Unit :=
  let st1 := { st with windowStateStore := (window_label, config) :: st.windowStateStore }
  match env.saveResult with
  | Except.error e => (st1, Except.error e)
  | Except.ok _ => (st1, Except.ok ())

/-- `load_window_state` (lines 193-209). -/
def load_window_state (st : SysState) (window_label : String) :
    Except String (Option WindowConfig) :=
  match slookup window_label st.windowStateStore with
  | some config => Except.ok (some config)
  | none => Except.ok none

-- ## Notification settings

/-- `load_notification_settings` (lines 397-413). -/
def load_notification_settings (st : SysState) : Except String NotificationSettings :=
  match slookup "settings" st.settingsStore with
  | some value => Except.ok value
  | none => Except.ok NotificationSettings.default

/-- The settings `show_notification` acts on (what `load_notification_settings`
returns; it never fails on a well-typed store). -/
def loadedSettings (st : SysState) : NotificationSettings :=
  match slookup "settings" st.settingsStore with
  | some value => value
  | none => NotificationSettings.default

-- ## show_notification

/-- The `action_data` map built in `show_notification` (lines 287-300). -/
def buildActionData (notification_data : NotificationData) : List (String × String) :=
  let base := [("notification_id", notification_data.id),
               ("type", notification_data.notification_type)]
  let withChat :=
    match notification_data.chat_id with
    | some chat_id => base ++ [("chat_id", chat_id)]
    | none => base
  match notification_data.sender_id with
  | some sender_id => withChat ++ [("sender_id", sender_id)]
  | none => withChat

/-- The tail of `show_notification` after all gates pass (lines 272-315):
build the body, store the action data, save the store, show the notification. -/
def show_notification_emits (env : HostEnv) (st : SysState)
    (notification_data : NotificationData) (settings : NotificationSettings) :
    SysState × Except String Unit :=
  let body := if settings.show_preview then notification_data.body else "New message"
  let action_data := buildActionData notification_data
  let st1 := { st with notifStore := (notification_data.id, action_data) :: st.notifStore }
  match env.saveResult with
  | Except.error e => (st1, Except.error e)
  | Except.ok _ =>
    match env.notifShowResult with
    | Except.error e => (st1, Except.error e)
    | Except.ok _ =>
      ({ st1 with shown := (notification_data.title, body) :: st1.shown }, Except.ok ())

/-- The gate sequence of `show_notification` (lines 246-270) applied to the
loaded settings. -/
def show_notification_gates (env : HostEnv) (st : SysState)
    (notification_data : NotificationData) (settings : NotificationSettings) :
    SysState × Except String Unit :=
  if !settings.enabled then (st, Except.ok ())
  else if settings.suppress_when_focused && (getWebviewWindow st "main").isSome
      && env.mainFocused then
    (st, Except.ok ())
  else if settings.quiet_hours_enabled then
    match settings.quiet_hours_start, settings.quiet_hours_end with
    | some start, some stop =>
      if strLe start env.currentTime && strLe env.currentTime stop then (st, Except.ok ())
      else show_notification_emits env st notification_data settings
    | _, _ => show_notification_emits env st notification_data settings
  else show_notification_emits env st notification_data settings

/-- `show_notification` (lines 238-316). -/
def show_notification (env : HostEnv) (st : SysState)
    (notification_data : NotificationData) : SysState × Except String Unit :=
  match load_notification_settings st with
  | Except.error e => (st, Except.error e)
  | Except.ok settings => show_notification_gates env st notification_data settings

-- ## handle_notification_click

/-- The shared shape of the `contact_request` and `group_invite` arms
(lines 343-364): restore the main window, then emit the event to it. -/
def dispatchEmit (env : HostEnv) (st : SysState) (eventName : String) :
    SysState × Except String Unit :=
  stepThen (restore_from_tray env st) fun st1 =>
    match getWebviewWindow st1 "main" with
    | some _ =>
      match env.emitResult with
      | Except.error e => (st1, Except.error e)
      | Except.ok _ =>
        ({ st1 with events := ("main", eventName) :: st1.events }, Except.ok ())
    | none => (st1, Except.ok ())

/-- The dispatch `match data.get("type")` of `handle_notification_click`
(lines 332-369). -/
def dispatchClick (env : HostEnv) (st : SysState) (data : List (String × String)) :
    SysState × Except String Unit :=
  let t := slookup "type" data
  if t = some "message" then
    stepThen
      (match slookup "chat_id" data with
       | some chat_id => create_chat_window env st chat_id "Contact"
       | none => (st, Except.ok ()))
      fun st1 => restore_from_tray env st1
  else if t = some "contact_request" then dispatchEmit env st "show-contact-requests"
  else if t = some "group_invite" then dispatchEmit env st "show-group-invites"
  else restore_from_tray env st

/-- `handle_notification_click` (lines 318-377): look the id up, dispatch on
the stored type (each arm propagates host errors with `?`), then delete the
record and save with the save result ignored (`let _ = store.save()`). -/
def handle_notification_click (env : HostEnv) (st : SysState) (notification_id : String) :
    SysState × Except String Unit :=
  match slookup notification_id st.notifStore with
  | some data =>
    stepThen (dispatchClick env st data) fun st1 =>
      ({ st1 with notifStore := sdelete notification_id st1.notifStore }, Except.ok ())
  | none => (st, Except.ok ())

-- ## open_url

/-- `open_url` (lines 429-443). -/
def open_url (env : HostEnv) (url : String) : Except String Unit :=
  if !strStartsWith url "https://" && !strStartsWith url "http://" then
    Except.error "Invalid URL scheme"
  else
    match env.openerResult with
    | Except.error e => Except.error ("Failed to open URL: " ++ e)
    | Except.ok _ => Except.ok ()

-- ## Concrete fixtures used by witnesses and counterexamples

/-- An environment in which every host call succeeds. -/
def envAllOk : HostEnv :=
  { setFocusResult := Except.ok ()
    showResult := Except.ok ()
    hideResult := Except.ok ()
    closeResult := Except.ok ()
    buildResult := Except.ok ()
    emitResult := Except.ok ()
    saveResult := Except.ok ()
    notifShowResult := Except.ok ()
    openerResult := Except.ok ()
    mainFocused := false
    currentTime := "12:00" }

/-- A state with no windows and all stores empty. -/
def emptyState : SysState :=
  { windows := []
    notifStore := []
    settingsStore := []
    windowStateStore := []
    shown := []
    events := []
    focusLog := [] }

/-- A concrete main window. -/
def mainWindow : WebviewWindow := { title := "MSN Messenger", url := "/", visible := true }

-- ## General lemmas about the store operations

theorem slookup_sdelete {β : Type} (k : String) (l : List (String × β)) :
    slookup k (sdelete k l) = none := by
  induction l with
  | nil => rfl
  | cons p rest ih =>
    obtain ⟨k2, v⟩ := p
    by_cases h : k = k2
    · simpa [sdelete, h] using ih
    · simp [sdelete, slookup, h, ih]

theorem stepThen_ok (r : SysState × Except String Unit)
    (f : SysState → SysState × Except String Unit) (h : r.2 = Except.ok ()) :
    stepThen r f = f r.1 := by
  obtain ⟨st1, res⟩ := r
  cases res with
  | error e => exact absurd h (by simp)
  | ok u => cases u; rfl

-- ## C3

theorem safeChar_cond (c : Char) :
    ((isAsciiAlphanumericChar c = true ∨ c = '_') ∨ c = '-') ↔ specSafeChar c = true := by
  simp [isAsciiAlphanumericChar, specSafeChar, Bool.or_assoc, or_assoc]

/-- C3: for every chat identifier, the derived window label replaces each
character outside `[A-Za-z0-9_-]` (and keeps each character inside it), and
`create_chat_window` and `close_chat_window` derive the same label for the
same input identifier. -/
theorem chat_window_label_normalization (chat_id : String) :
    createChatWindowLabel chat_id = closeChatWindowLabel chat_id
    ∧ (createChatWindowLabel chat_id).data
        = "chat-".data ++ chat_id.data.map (fun c => if specSafeChar c then c else '-') := by
  constructor
  · rfl
  · show ("chat-" ++ createChatNormalizedId chat_id).data = _
    simp [createChatNormalizedId]
    intro a _
    simp only [safeChar_cond]

-- ## C5

theorem failed_open_ne_invalid_scheme (e : String) :
    ("Failed to open URL: " ++ e) ≠ "Invalid URL scheme" := by
  intro h
  have h2 := congrArg String.length h
  rw [String.length_append] at h2
  have hl : ("Failed to open URL: ").length = 20 := by decide
  have hr : ("Invalid URL scheme").length = 18 := by decide
  omega

/-- C5: `open_url` returns the error "Invalid URL scheme" if and only if the
url starts with neither "http://" nor "https://"; when the prefix check passes
it returns exactly the host opener's outcome (with opener errors wrapped in
"Failed to open URL: "). -/
theorem open_url_scheme_check (env : HostEnv) (url : String) :
    (open_url env url = Except.error "Invalid URL scheme"
      ↔ (strStartsWith url "https://" = false ∧ strStartsWith url "http://" = false))
    ∧ ((strStartsWith url "https://" = true ∨ strStartsWith url "http://" = true) →
        open_url env url
          = (match env.openerResult with
             | Except.error e => Except.error ("Failed to open URL: " ++ e)
             | Except.ok _ => Except.ok ())) := by
  cases h1 : strStartsWith url "https://" <;> cases h2 : strStartsWith url "http://" <;>
    cases ho : env.openerResult <;>
      simp [open_url, h1, h2, ho, failed_open_ne_invalid_scheme]

/-- Witness for C5 at concrete inputs. -/
theorem open_url_scheme_check_witness :
    open_url envAllOk "https://example.com" = Except.ok () :=
  (open_url_scheme_check envAllOk "https://example.com").2 (Or.inl (by decide))

-- ## C6

/-- C6: when the notification-settings store has no value under its fixed
"settings" key, `load_notification_settings` returns ok with exactly the
documented default record. -/
theorem load_notification_settings_empty_default (st : SysState)
    (h : slookup "settings" st.settingsStore = none) :
    load_notification_settings st
      = Except.ok { enabled := true, sound_enabled := true, show_preview := true,
                    suppress_when_focused := true, quiet_hours_enabled := false,
                    quiet_hours_start := none, quiet_hours_end := none } := by
  unfold load_notification_settings
  rw [h]
  rfl

/-- Witness for C6 on the empty store. -/
theorem load_notification_settings_empty_default_witness :
    load_notification_settings emptyState
      = Except.ok { enabled := true, sound_enabled := true, show_preview := true,
                    suppress_when_focused := true, quiet_hours_enabled := false,
                    quiet_hours_start := none, quiet_hours_end := none } :=
  load_notification_settings_empty_default emptyState rfl

-- ## C8

/-- C8: saving a `WindowConfig` under a label and then loading that label
returns `some` of a field-for-field identical config (the identical record),
regardless of the outcome of the persistence save. -/
theorem save_load_window_state_roundtrip (env : HostEnv) (st : SysState)
    (window_label : String) (config : WindowConfig) :
    load_window_state (save_window_state env st window_label config).1 window_label
      = Except.ok (some config) := by
  cases h : env.saveResult <;>
    simp [save_window_state, load_window_state, slookup, h]

-- ## C10

/-- C10: for a notification id with no stored record, `handle_notification_click`
returns ok and leaves the state entirely unchanged. -/
theorem handle_notification_click_unknown_noop (env : HostEnv) (st : SysState)
    (notification_id : String)
    (h : slookup notification_id st.notifStore = none) :
    handle_notification_click env st notification_id = (st, Except.ok ()) := by
  unfold handle_notification_click
  rw [h]

/-- Witness for C10 on the empty store. -/
theorem handle_notification_click_unknown_noop_witness :
    handle_notification_click envAllOk emptyState "missing-id" = (emptyState, Except.ok ()) :=
  handle_notification_click_unknown_noop envAllOk emptyState "missing-id" rfl

-- ## Lemmas about the window map

theorem slookup_updVisible_self (label : String) (b : Bool)
    (l : List (String × WebviewWindow)) :
    slookup label (updVisible label b l)
      = (slookup label l).map fun w => { w with visible := b } := by
  induction l with
  | nil => rfl
  | cons p rest ih =>
    obtain ⟨k2, w⟩ := p
    have hcons : updVisible label b ((k2, w) :: rest)
        = (if k2 = label then (k2, { w with visible := b }) else (k2, w))
            :: updVisible label b rest := rfl
    rw [hcons]
    by_cases h : k2 = label
    · rw [if_pos h]
      simp only [slookup]
      rw [if_pos h.symm, if_pos h.symm]
      rfl
    · have h2 : ¬ label = k2 := fun hh => h hh.symm
      rw [if_neg h]
      simp only [slookup]
      rw [if_neg h2, if_neg h2]
      exact ih

theorem slookup_updVisible_other (label : String) (b : Bool) (k : String)
    (l : List (String × WebviewWindow)) (hk : k ≠ label) :
    slookup k (updVisible label b l) = slookup k l := by
  induction l with
  | nil => rfl
  | cons p rest ih =>
    obtain ⟨k2, w⟩ := p
    have hcons : updVisible label b ((k2, w) :: rest)
        = (if k2 = label then (k2, { w with visible := b }) else (k2, w))
            :: updVisible label b rest := rfl
    rw [hcons]
    by_cases h : k2 = label
    · have hk2 : ¬ k = k2 := fun hh => hk (hh.trans h)
      rw [if_pos h]
      simp only [slookup]
      rw [if_neg hk2, if_neg hk2]
      exact ih
    · by_cases hkk : k = k2
      · rw [if_neg h]
        simp only [slookup]
        rw [if_pos hkk, if_pos hkk]
      · rw [if_neg h]
        simp only [slookup]
        rw [if_neg hkk, if_neg hkk]
        exact ih

-- ## C4

/-- C4: a close request for the primary window "main" is vetoed: the window is
hidden instead of destroyed, so it remains retrievable by its fixed label
afterward and is marked not visible. -/
theorem main_window_close_hides (env : HostEnv) (st : SysState) (w : WebviewWindow)
    (hmain : getWebviewWindow st "main" = some w)
    (hhide : env.hideResult = Except.ok ()) :
    getWebviewWindow (on_window_event_close_requested env st "main") "main"
      = some { w with visible := false } := by
  unfold getWebviewWindow at hmain
  unfold on_window_event_close_requested
  rw [hhide]
  simp [setWindowVisible, getWebviewWindow, slookup_updVisible_self, hmain]

/-- A concrete state holding only the main window. -/
def stMain : SysState := { emptyState with windows := [("main", mainWindow)] }

/-- Witness for C4 on a concrete state. -/
theorem main_window_close_hides_witness :
    getWebviewWindow (on_window_event_close_requested envAllOk stMain "main") "main"
      = some { mainWindow with visible := false } :=
  main_window_close_hides envAllOk stMain mainWindow (by decide) rfl

-- ## C7

/-- C7: calling `create_chat_window` a second time with the same identifier,
while the window created by the first call is still open, focuses the existing
window with the derived label and returns ok without building a second window
(the state is unchanged except for the focus record). -/
theorem create_chat_window_second_focuses (env : HostEnv) (st : SysState)
    (chat_id name1 name2 : String)
    (habs : getWebviewWindow st (createChatWindowLabel chat_id) = none)
    (hbuild : env.buildResult = Except.ok ())
    (hfocus : env.setFocusResult = Except.ok ()) :
    create_chat_window env (create_chat_window env st chat_id name1).1 chat_id name2
      = ({ (create_chat_window env st chat_id name1).1 with
            focusLog := createChatWindowLabel chat_id
              :: (create_chat_window env st chat_id name1).1.focusLog },
          Except.ok ()) := by
  have h1 : create_chat_window env st chat_id name1
      = ({ st with windows := (createChatWindowLabel chat_id,
            { title := "Chat with " ++ name1,
              url := "/?chat=" ++ chat_id ++ "&window=chat",
              visible := true }) :: st.windows }, Except.ok ()) := by
    unfold create_chat_window
    simp [habs, hbuild]
  rw [h1]
  unfold create_chat_window
  simp [getWebviewWindow, slookup, hfocus]

/-- Witness for C7 on a concrete state. -/
theorem create_chat_window_second_focuses_witness :
    create_chat_window envAllOk (create_chat_window envAllOk emptyState "alice" "Alice").1
        "alice" "Alice"
      = ({ (create_chat_window envAllOk emptyState "alice" "Alice").1 with
            focusLog := createChatWindowLabel "alice"
              :: (create_chat_window envAllOk emptyState "alice" "Alice").1.focusLog },
          Except.ok ()) :=
  create_chat_window_second_focuses envAllOk emptyState "alice" "Alice" "Alice" rfl rfl rfl

-- ## C1

theorem show_notification_eq_gates (env : HostEnv) (st : SysState) (nd : NotificationData) :
    show_notification env st nd = show_notification_gates env st nd (loadedSettings st) := by
  unfold show_notification load_notification_settings loadedSettings
  cases slookup "settings" st.settingsStore <;> rfl

theorem show_notification_emits_ne (env : HostEnv) (st : SysState) (nd : NotificationData)
    (settings : NotificationSettings) :
    show_notification_emits env st nd settings ≠ (st, Except.ok ()) := by
  intro h
  cases hs : env.saveResult with
  | error e =>
    simp only [show_notification_emits, hs] at h
    exact absurd (congrArg Prod.snd h) (by simp)
  | ok u =>
    cases hn : env.notifShowResult with
    | error e =>
      simp only [show_notification_emits, hs, hn] at h
      exact absurd (congrArg Prod.snd h) (by simp)
    | ok u2 =>
      simp only [show_notification_emits, hs, hn] at h
      have h1 := congrArg (fun p => p.1.notifStore.length) h
      simp at h1

theorem show_notification_gates_noop_iff (env : HostEnv) (st : SysState)
    (nd : NotificationData) (settings : NotificationSettings) :
    show_notification_gates env st nd settings = (st, Except.ok ()) ↔
      (settings.enabled = false
        ∨ (settings.suppress_when_focused = true
            ∧ (getWebviewWindow st "main").isSome = true ∧ env.mainFocused = true)
        ∨ (settings.quiet_hours_enabled = true
            ∧ ∃ a b, settings.quiet_hours_start = some a ∧ settings.quiet_hours_end = some b
                ∧ strLe a env.currentTime = true ∧ strLe env.currentTime b = true)) := by
  cases h1 : settings.enabled with
  | false =>
    have hg : show_notification_gates env st nd settings = (st, Except.ok ()) := by
      simp [show_notification_gates, h1]
    rw [hg]
    simp [h1]
  | true =>
    cases h2 : settings.suppress_when_focused && (getWebviewWindow st "main").isSome
        && env.mainFocused with
    | true =>
      have hg : show_notification_gates env st nd settings = (st, Except.ok ()) := by
        simp [show_notification_gates, h1, h2]
      rw [hg]
      rw [Bool.and_eq_true, Bool.and_eq_true] at h2
      simp [h1, h2.1.1, h2.1.2, h2.2]
    | false =>
      cases h3 : settings.quiet_hours_enabled with
      | false =>
        have hg : show_notification_gates env st nd settings
            = show_notification_emits env st nd settings := by
          simp [show_notification_gates, h1, h2, h3]
        rw [hg]
        apply iff_of_false (show_notification_emits_ne env st nd settings)
        rintro (hd1 | ⟨hs, hi, hf⟩ | ⟨hq, _⟩)
        · exact absurd hd1 (by simp)
        · rw [hs, hi, hf] at h2; simp at h2
        · exact absurd hq (by simp)
      | true =>
        cases hst : settings.quiet_hours_start with
        | none =>
          have hg : show_notification_gates env st nd settings
              = show_notification_emits env st nd settings := by
            simp [show_notification_gates, h1, h2, h3, hst]
          rw [hg]
          apply iff_of_false (show_notification_emits_ne env st nd settings)
          rintro (hd1 | ⟨hs, hi, hf⟩ | ⟨_, a, b2, ha, hb, _⟩)
          · exact absurd hd1 (by simp)
          · rw [hs, hi, hf] at h2; simp at h2
          · exact absurd ha (by simp)
        | some a =>
          cases hen : settings.quiet_hours_end with
          | none =>
            have hg : show_notification_gates env st nd settings
                = show_notification_emits env st nd settings := by
              simp [show_notification_gates, h1, h2, h3, hst, hen]
            rw [hg]
            apply iff_of_false (show_notification_emits_ne env st nd settings)
            rintro (hd1 | ⟨hs, hi, hf⟩ | ⟨_, a2, b2, ha, hb, _⟩)
            · exact absurd hd1 (by simp)
            · rw [hs, hi, hf] at h2; simp at h2
            · exact absurd hb (by simp)
          | some b2 =>
            cases hr : strLe a env.currentTime && strLe env.currentTime b2 with
            | true =>
              have hg : show_notification_gates env st nd settings = (st, Except.ok ()) := by
                simp [show_notification_gates, h1, h2, h3, hst, hen, hr]
              rw [hg]
              rw [Bool.and_eq_true] at hr
              exact iff_of_true rfl (Or.inr (Or.inr ⟨rfl, a, b2, rfl, rfl, hr.1, hr.2⟩))
            | false =>
              have hg : show_notification_gates env st nd settings
                  = show_notification_emits env st nd settings := by
                simp [show_notification_gates, h1, h2, h3, hst, hen, hr]
              rw [hg]
              apply iff_of_false (show_notification_emits_ne env st nd settings)
              rintro (hd1 | ⟨hs, hi, hf⟩ | ⟨_, a2, b3, ha2, hb3, hle1, hle2⟩)
              · exact absurd hd1 (by simp)
              · rw [hs, hi, hf] at h2; simp at h2
              · injection ha2 with ha2e
                injection hb3 with hb3e
                subst ha2e
                subst hb3e
                rw [hle1, hle2] at hr
                exact absurd hr (by simp)

/-- C1: `show_notification` is a no-op returning ok (state entirely unchanged:
nothing stored, nothing shown) exactly when the loaded settings have
`enabled=false`, or `suppress_when_focused=true` and the primary window exists
and has input focus, or quiet hours are enabled with both bounds set and the
current local time-of-day string lies lexically within the inclusive bounds
(a plain string range check with no wrap-past-midnight handling). -/
theorem show_notification_noop_iff (env : HostEnv) (st : SysState) (nd : NotificationData) :
    show_notification env st nd = (st, Except.ok ()) ↔
      ((loadedSettings st).enabled = false
        ∨ ((loadedSettings st).suppress_when_focused = true
            ∧ (getWebviewWindow st "main").isSome = true ∧ env.mainFocused = true)
        ∨ ((loadedSettings st).quiet_hours_enabled = true
            ∧ ∃ a b, (loadedSettings st).quiet_hours_start = some a
                ∧ (loadedSettings st).quiet_hours_end = some b
                ∧ strLe a env.currentTime = true ∧ strLe env.currentTime b = true)) := by
  rw [show_notification_eq_gates]
  exact show_notification_gates_noop_iff env st nd (loadedSettings st)

-- ## Dispatch success lemmas

theorem restore_from_tray_ok (env : HostEnv) (st : SysState)
    (hshow : env.showResult = Except.ok ()) (hfocus : env.setFocusResult = Except.ok ()) :
    (restore_from_tray env st).2 = Except.ok () := by
  unfold restore_from_tray
  cases h : getWebviewWindow st "main" <;> simp [hshow, hfocus]

theorem create_chat_window_ok (env : HostEnv) (st : SysState) (chat_id contact_name : String)
    (hfocus : env.setFocusResult = Except.ok ()) (hbuild : env.buildResult = Except.ok ()) :
    (create_chat_window env st chat_id contact_name).2 = Except.ok () := by
  unfold create_chat_window
  cases h : getWebviewWindow st (createChatWindowLabel chat_id) <;> simp [h, hfocus, hbuild]

theorem dispatchEmit_ok (env : HostEnv) (st : SysState) (eventName : String)
    (hshow : env.showResult = Except.ok ()) (hfocus : env.setFocusResult = Except.ok ())
    (hemit : env.emitResult = Except.ok ()) :
    (dispatchEmit env st eventName).2 = Except.ok () := by
  unfold dispatchEmit
  rw [stepThen_ok _ _ (restore_from_tray_ok env st hshow hfocus)]
  cases h : getWebviewWindow (restore_from_tray env st).1 "main" <;> simp [hemit]

theorem dispatchClick_ok (env : HostEnv) (st : SysState) (data : List (String × String))
    (hshow : env.showResult = Except.ok ()) (hfocus : env.setFocusResult = Except.ok ())
    (hemit : env.emitResult = Except.ok ()) (hbuild : env.buildResult = Except.ok ()) :
    (dispatchClick env st data).2 = Except.ok () := by
  unfold dispatchClick
  by_cases h1 : slookup "type" data = some "message"
  · rw [if_pos h1]
    cases h2 : slookup "chat_id" data with
    | some chat_id =>
      simp only [h2]
      rw [stepThen_ok _ _ (create_chat_window_ok env st chat_id "Contact" hfocus hbuild)]
      exact restore_from_tray_ok env _ hshow hfocus
    | none =>
      simp only [h2]
      rw [stepThen_ok _ _ rfl]
      exact restore_from_tray_ok env _ hshow hfocus
  · rw [if_neg h1]
    by_cases h2 : slookup "type" data = some "contact_request"
    · rw [if_pos h2]
      exact dispatchEmit_ok env st _ hshow hfocus hemit
    · rw [if_neg h2]
      by_cases h3 : slookup "type" data = some "group_invite"
      · rw [if_pos h3]
        exact dispatchEmit_ok env st _ hshow hfocus hemit
      · rw [if_neg h3]
        exact restore_from_tray_ok env st hshow hfocus

-- ## C2

/-- An environment identical to `envAllOk` except that `window.show` fails. -/
def envShowFails : HostEnv := { envAllOk with showResult := Except.error "show failed" }

/-- A state with the main window open and one pending click-through record. -/
def stClickPending : SysState :=
  { emptyState with
      windows := [("main", mainWindow)]
      notifStore := [("n1", [("notification_id", "n1"), ("type", "contact_request")])] }

/-- Counterexample to C2 as stated: when a dispatch host call fails (here
`window.show` inside `restore_from_tray`), `handle_notification_click`
propagates the error before reaching the cleanup, so the stored record is NOT
deleted and a subsequent load still returns it. -/
theorem handle_notification_click_no_delete_on_error :
    (handle_notification_click envShowFails stClickPending "n1").2
        = Except.error "show failed"
    ∧ slookup "n1" (handle_notification_click envShowFails stClickPending "n1").1.notifStore
        = some [("notification_id", "n1"), ("type", "contact_request")] := by
  constructor <;> rfl

/-- C2 (amended): for every notification id with a stored record, when every
host call made during dispatch succeeds, `handle_notification_click` deletes
the record (regardless of the ignored final store-save outcome, which the model
reflects by not consulting it), so a subsequent load of that id returns absent;
a failing dispatch host call instead propagates the error with the record kept. -/
theorem handle_notification_click_deletes (env : HostEnv) (st : SysState)
    (notification_id : String) (data : List (String × String))
    (hdata : slookup notification_id st.notifStore = some data)
    (hshow : env.showResult = Except.ok ()) (hfocus : env.setFocusResult = Except.ok ())
    (hemit : env.emitResult = Except.ok ()) (hbuild : env.buildResult = Except.ok ()) :
    slookup notification_id (handle_notification_click env st notification_id).1.notifStore
        = none
    ∧ (handle_notification_click env st notification_id).2 = Except.ok () := by
  have hd := dispatchClick_ok env st data hshow hfocus hemit hbuild
  unfold handle_notification_click
  rw [hdata]
  dsimp only
  rw [stepThen_ok _ _ hd]
  exact ⟨slookup_sdelete _ _, rfl⟩

/-- Witness for C2 (amended) on a concrete state with all host calls succeeding. -/
theorem handle_notification_click_deletes_witness :
    slookup "n1" (handle_notification_click envAllOk stClickPending "n1").1.notifStore = none
    ∧ (handle_notification_click envAllOk stClickPending "n1").2 = Except.ok () :=
  handle_notification_click_deletes envAllOk stClickPending "n1"
    [("notification_id", "n1"), ("type", "contact_request")] rfl rfl rfl rfl rfl

-- ## C9

theorem chatLabel_ne_main (chat_id : String) : createChatWindowLabel chat_id ≠ "main" := by
  intro h
  have h2 := congrArg String.length h
  rw [createChatWindowLabel, String.length_append] at h2
  have hl : ("chat-").length = 5 := by decide
  have hr : ("main").length = 4 := by decide
  omega

theorem restore_preserves_window (env : HostEnv) (st : SysState) (k : String)
    (hk : k ≠ "main") :
    getWebviewWindow (restore_from_tray env st).1 k = getWebviewWindow st k := by
  have hu := slookup_updVisible_other "main" true k st.windows hk
  unfold restore_from_tray
  cases h : getWebviewWindow st "main" with
  | none => rfl
  | some w =>
    cases hs : env.showResult with
    | error e => rfl
    | ok u =>
      cases hf : env.setFocusResult <;>
        simp [getWebviewWindow, setWindowVisible, hu]

/-- C9: when `handle_notification_click` dispatches a stored record of type
"message" with a chat_id present (and the chat window does not already exist),
the chat window it opens is created with the hardcoded contact name "Contact",
so the new window is titled "Chat with Contact" regardless of the stored
sender_id or any other stored data. -/
theorem handle_notification_click_message_contact (env : HostEnv) (st : SysState)
    (notification_id : String) (data : List (String × String)) (chat_id : String)
    (hdata : slookup notification_id st.notifStore = some data)
    (htype : slookup "type" data = some "message")
    (hchat : slookup "chat_id" data = some chat_id)
    (habs : getWebviewWindow st (createChatWindowLabel chat_id) = none)
    (hbuild : env.buildResult = Except.ok ()) :
    getWebviewWindow (handle_notification_click env st notification_id).1
        (createChatWindowLabel chat_id)
      = some { title := "Chat with " ++ "Contact",
               url := "/?chat=" ++ chat_id ++ "&window=chat", visible := true } := by
  have hcreate : create_chat_window env st chat_id "Contact"
      = ({ st with windows := (createChatWindowLabel chat_id,
            { title := "Chat with " ++ "Contact",
              url := "/?chat=" ++ chat_id ++ "&window=chat",
              visible := true }) :: st.windows }, Except.ok ()) := by
    unfold create_chat_window
    simp [habs, hbuild]
  have hdisp : dispatchClick env st data
      = restore_from_tray env (create_chat_window env st chat_id "Contact").1 := by
    unfold dispatchClick
    rw [if_pos htype]
    simp only [hchat]
    rw [stepThen_ok _ _ (by rw [hcreate])]
  have hwin : getWebviewWindow (dispatchClick env st data).1 (createChatWindowLabel chat_id)
      = some { title := "Chat with " ++ "Contact",
               url := "/?chat=" ++ chat_id ++ "&window=chat", visible := true } := by
    rw [hdisp]
    rw [restore_preserves_window env _ _ (chatLabel_ne_main chat_id)]
    rw [hcreate]
    unfold getWebviewWindow
    simp [slookup]
  unfold handle_notification_click
  rw [hdata]
  dsimp only
  rcases hres : dispatchClick env st data with ⟨st2, r2⟩
  rw [hres] at hwin
  cases r2 with
  | error e => exact hwin
  | ok u => exact hwin

/-- A state with no windows and one pending "message" click-through record. -/
def stMsgPending : SysState :=
  { emptyState with
      notifStore := [("n2", [("notification_id", "n2"), ("type", "message"),
                             ("chat_id", "42"), ("sender_id", "bob")])] }

/-- Witness for C9 on a concrete state. -/
theorem handle_notification_click_message_contact_witness :
    getWebviewWindow (handle_notification_click envAllOk stMsgPending "n2").1
        (createChatWindowLabel "42")
      = some { title := "Chat with " ++ "Contact",
               url := "/?chat=" ++ "42" ++ "&window=chat", visible := true } :=
  handle_notification_click_message_contact envAllOk stMsgPending "n2"
    [("notification_id", "n2"), ("type", "message"), ("chat_id", "42"), ("sender_id", "bob")]
    "42" rfl rfl rfl rfl rfl
